import Mathlib

/-!
Verification of the IAM role lifecycle module (cloudknot/aws/iam.py).

The module manages a single AWS IAM role as an adopt-or-create resource.
We embed the data model and the operations of the class IamRole shallowly:
the external IAM collaborator is modelled as an environment record holding
the responses it would give, and each operation returns the list of
collaborator calls it issues (its trace) together with its result, with
failures expressed through Except.
-/

namespace Cloudknot

/-- A managed policy as reported by the collaborator list_policies call:
a record with fields PolicyName and Arn. -/
structure Policy where
  policyName : String
  arn : String
  deriving DecidableEq, Repr

/-- One statement of a trust-policy document. -/
structure TrustStatement where
  sid : String
  effect : String
  principalService : String
  action : String
  deriving DecidableEq, Repr

/-- A trust-policy document: a Version string and a list of statements. -/
structure PolicyDoc where
  version : String
  statement : List TrustStatement
  deriving DecidableEq, Repr

/-- The payload of a successful get_role response: the Arn, the optional
Description key (its absence raises KeyError in the source, handled by a
fallback to the empty string), and the AssumeRolePolicyDocument. -/
structure GetRoleResp where
  arn : String
  description : Option String
  assumeRolePolicyDocument : PolicyDoc
  deriving DecidableEq, Repr

/-- An instance profile as reported by list_instance_profiles_for_role. -/
structure InstanceProfile where
  instanceProfileName : String
  arn : String
  deriving DecidableEq, Repr

/-- The external IAM collaborator, modelled as the responses it returns to
the operations the module consumes.  getRoleResp is none when get_role
raises NoSuchEntityException for the role name under consideration. -/
structure Env where
  getRoleResp : Option GetRoleResp
  attachedRolePolicies : List String
  policies : List Policy
  createRoleArn : String
  instanceProfilesForRole : List InstanceProfile
  deriving DecidableEq, Repr

/-- One collaborator call, with the arguments the source passes. -/
inductive Call where
  | getRole (roleName : String)
  | listAttachedRolePolicies (roleName : String)
  | listPolicies
  | createRole (roleName : String) (doc : PolicyDoc) (description : String)
  | attachRolePolicy (policyArn : String) (roleName : String)
  | createInstanceProfile (profileName : String)
  | addRoleToInstanceProfile (profileName : String) (roleName : String)
  | listInstanceProfilesForRole (roleName : String)
  | removeRoleFromInstanceProfile (profileName : String) (roleName : String)
  | deleteInstanceProfile (profileName : String)
  | detachRolePolicy (roleName : String) (policyArn : String)
  | deleteRole (roleName : String)
  deriving DecidableEq, Repr

/-- Whether a call mutates external state (as opposed to the four read
calls get_role, list_attached_role_policies, list_policies and
list_instance_profiles_for_role). -/
def Call.isWrite : Call → Bool
  | .getRole _ => false
  | .listAttachedRolePolicies _ => false
  | .listPolicies => false
  | .listInstanceProfilesForRole _ => false
  | .createRole _ _ _ => true
  | .attachRolePolicy _ _ => true
  | .createInstanceProfile _ => true
  | .addRoleToInstanceProfile _ _ => true
  | .removeRoleFromInstanceProfile _ _ => true
  | .deleteInstanceProfile _ => true
  | .detachRolePolicy _ _ => true
  | .deleteRole _ => true

/-- The errors the module raises.  The source raises bare Exception with a
message; we name them after the condition that triggers each raise site:
invalidServicePrincipal for the service-enum check, invalidPolicySet for
both the input-shape check and the subset check, indexError for the
unguarded index-zero accesses on filter results and instance-profile
lists. -/
inductive Err where
  | invalidServicePrincipal
  | invalidPolicySet
  | invalidInstanceProfileFlag
  | indexError
  deriving DecidableEq, Repr

/-- A Python value that may appear inside the policies tuple: a string or
anything else, which the isinstance check rejects. -/
inductive PyVal where
  | str (s : String)
  | other
  deriving DecidableEq, Repr

/-- The policies argument of the constructor: either a single string
(the isinstance str branch) or a tuple of Python values. -/
inductive PolicyInput where
  | single (s : String)
  | tup (l : List PyVal)
  deriving DecidableEq, Repr

/-- The result of the existence probe: the RoleExists namedtuple of the
source, whose fields other than exists default to None. -/
structure RoleExists where
  exists_ : Bool
  description : Option String
  role_policy_document : Option PolicyDoc
  policies : Option (List String)
  add_instance_profile : Option Bool
  arn : Option String
  deriving DecidableEq, Repr

/-- The in-memory IamRole object: the fields the constructor assigns.
Both constructor branches always assign a string description, a policy
document, a tuple of policy names, a boolean instance-profile flag and a
string arn, so those fields are not optional; service is None on the
adoption branch.  The verbosity field only gates printing and is
omitted. -/
structure IamRole where
  name : String
  pre_existing : Bool
  description : String
  service : Option String
  role_policy_document : PolicyDoc
  policies : List String
  add_instance_profile : Bool
  arn : String
  deriving DecidableEq, Repr

/-- The fixed list _allowed_services of the source. -/
def allowed_services : List String := ["batch", "ec2", "ecs-tasks", "lambda", "spotfleet"]

/-- IamRole._exists_already: call get_role; on NoSuchEntityException
return a RoleExists with exists False and every other field None; on
success extract the arn, the description (empty string when the key is
absent), the trust-policy document, then call
list_attached_role_policies and collect the PolicyName of each entry.
The add_instance_profile field of a successful probe is the literal
False.  Returns the calls issued together with the namedtuple. -/
def exists_already (name : String) (env : Env) : List Call × RoleExists :=
  match env.getRoleResp with
  | none =>
    ([Call.getRole name],
     { exists_ := false, description := none, role_policy_document := none,
       policies := none, add_instance_profile := none, arn := none })
  | some resp =>
    let description := match resp.description with
      | some d => d
      | none => ""
    ([Call.getRole name, Call.listAttachedRolePolicies name],
     { exists_ := true, description := some description,
       role_policy_document := some resp.assumeRolePolicyDocument,
       policies := some env.attachedRolePolicies,
       add_instance_profile := some false,
       arn := some resp.arn })

/-- The normalization of the policies argument performed by the source:
a lone string becomes a singleton, a tuple passes the all-strings
isinstance check (none when it fails) and is converted to a set.  Python
set iteration order is unspecified; we canonically keep the first
occurrence of each name. -/
def normalizePolicies : PolicyInput → Option (List String)
  | .single s => some [s]
  | .tup l =>
    if l.all (fun x => match x with | .str _ => true | .other => false) then
      some ((l.filterMap (fun x => match x with | .str s => some s | .other => none)).eraseDups)
    else
      none

/-- Membership-based subset test between lists read as sets. -/
def subsetB (a b : List String) : Bool := a.all fun x => b.contains x

/-- The Python strict comparison a < b on sets: subset and not equal,
i.e. subset in one direction and not in the other. -/
def pyStrictSubset (a b : List String) : Bool := subsetB a b && !(subsetB b a)

/-- The policy-resolution fragment of IamRole.__init__ (after the
list_policies read): reject an input that is neither a string nor an
all-strings tuple, then require the normalized set to be a strict
subset of the available names, returning the deduplicated tuple. -/
def resolvePolicies (policies : PolicyInput) (aws_policies : List String) :
    Except Err (List String) :=
  match normalizePolicies policies with
  | none => .error .invalidPolicySet
  | some input_policies =>
    if pyStrictSubset input_policies aws_policies then .ok input_policies
    else .error .invalidPolicySet

/-- The trust-policy document literal built in IamRole.__init__ for the
already-suffixed service string. -/
def mkRolePolicy (service_full : String) : PolicyDoc :=
  { version := "2012-10-17",
    statement := [{ sid := "", effect := "Allow",
                    principalService := service_full,
                    action := "sts:AssumeRole" }] }

/-- The attach loop of IamRole._create: for each policy name, filter the
available policies by PolicyName and take element zero (an IndexError,
i.e. a fatal race, when the filter result is empty), then issue
attach_role_policy with the found Arn.  Returns the attach calls issued
before any failure. -/
def attachLoop (name : String) (avail : List Policy) :
    List String → List Call × Except Err Unit
  | [] => ([], .ok ())
  | p :: rest =>
    match (avail.filter (fun q => q.policyName == p)).head? with
    | none => ([], .error .indexError)
    | some q =>
      (Call.attachRolePolicy q.arn name :: (attachLoop name avail rest).1,
       (attachLoop name avail rest).2)

/-- IamRole._create: create the role (capturing the returned Arn), call
list_policies, attach each policy via the attach loop, and when the
instance-profile flag is set create a profile named
name-instance-profile and add the role to it.  Returns the calls issued
and the role Arn. -/
def create (name : String) (doc : PolicyDoc) (descr : String)
    (policies : List String) (add_instance_profile : Bool) (env : Env) :
    List Call × Except Err String :=
  let t0 := [Call.createRole name doc descr, Call.listPolicies]
  let t1 := (attachLoop name env.policies policies).1
  match (attachLoop name env.policies policies).2 with
  | .error e => (t0 ++ t1, .error e)
  | .ok _ =>
    if add_instance_profile then
      let ipn := name ++ "-instance-profile"
      (t0 ++ t1 ++ [Call.createInstanceProfile ipn,
                    Call.addRoleToInstanceProfile ipn name],
       .ok env.createRoleArn)
    else
      (t0 ++ t1, .ok env.createRoleArn)

/-- IamRole.__init__: run the existence probe first; when the role
exists adopt its snapshot verbatim (service set to None); otherwise
default a falsy description, validate the service against the allowed
list (raising before any further call), build the trust-policy
document, call list_policies and resolve the requested policies against
the available names, then create the role.  The isinstance bool check
on add_instance_profile is immediate in this typed embedding.  Returns
the collaborator calls issued up to return or raise, and the
constructed object or the error. -/
def IamRole.init (name : String) (description : Option String)
    (service : String) (policies : PolicyInput)
    (add_instance_profile : Bool) (env : Env) :
    List Call × Except Err IamRole :=
  let (t0, role_exists) := exists_already name env
  if role_exists.exists_ then
    (t0, .ok
      { name := name
        pre_existing := true
        description := role_exists.description.getD ""
        service := none
        role_policy_document := role_exists.role_policy_document.getD (mkRolePolicy "")
        policies := role_exists.policies.getD []
        add_instance_profile := role_exists.add_instance_profile.getD false
        arn := role_exists.arn.getD "" })
  else
    let descr := match description with
      | some d => if d == "" then "This role was generated by cloudknot" else d
      | none => "This role was generated by cloudknot"
    if allowed_services.contains service then
      let service_full := service ++ ".amazonaws.com"
      let role_policy := mkRolePolicy service_full
      let t1 := t0 ++ [Call.listPolicies]
      let aws_policies := env.policies.map (·.policyName)
      match resolvePolicies policies aws_policies with
      | .error e => (t1, .error e)
      | .ok pols =>
        let t2 := (create name role_policy descr pols add_instance_profile env).1
        match (create name role_policy descr pols add_instance_profile env).2 with
        | .error e => (t1 ++ t2, .error e)
        | .ok role_arn =>
          (t1 ++ t2, .ok
            { name := name
              pre_existing := false
              description := descr
              service := some service_full
              role_policy_document := role_policy
              policies := pols
              add_instance_profile := add_instance_profile
              arn := role_arn })
    else
      (t0, .error .invalidServicePrincipal)

/-- The detach loop of IamRole.remove_aws_resource: same filter and
index-zero lookup as the attach loop, issuing detach_role_policy. -/
def detachLoop (name : String) (avail : List Policy) :
    List String → List Call × Except Err Unit
  | [] => ([], .ok ())
  | p :: rest =>
    match (avail.filter (fun q => q.policyName == p)).head? with
    | none => ([], .error .indexError)
    | some q =>
      (Call.detachRolePolicy name q.arn :: (detachLoop name avail rest).1,
       (detachLoop name avail rest).2)

/-- IamRole.remove_aws_resource: when the instance-profile flag is set,
list the instance profiles bound to the role, take element zero (an
IndexError when none are bound), remove the role from it and delete it;
then call list_policies, detach each attached policy via the detach
loop, and delete the role.  The method assigns no attribute of self, so
the embedding returns the object unchanged alongside the calls issued
and the outcome. -/
def remove_aws_resource (r : IamRole) (env : Env) :
    IamRole × List Call × Except Err Unit :=
  let step1 : List Call × Except Err Unit :=
    if r.add_instance_profile then
      match env.instanceProfilesForRole.head? with
      | none => ([Call.listInstanceProfilesForRole r.name], .error .indexError)
      | some ip =>
        ([Call.listInstanceProfilesForRole r.name,
          Call.removeRoleFromInstanceProfile ip.instanceProfileName r.name,
          Call.deleteInstanceProfile ip.instanceProfileName], .ok ())
    else
      ([], .ok ())
  match step1.2 with
  | .error e => (r, step1.1, .error e)
  | .ok _ =>
    let t2 := (detachLoop r.name env.policies r.policies).1
    match (detachLoop r.name env.policies r.policies).2 with
    | .error e => (r, step1.1 ++ Call.listPolicies :: t2, .error e)
    | .ok _ => (r, step1.1 ++ Call.listPolicies :: t2 ++ [Call.deleteRole r.name], .ok ())

/-- The arn found for a policy name by the index-zero lookup on the
filtered available-policy list, used to describe the attach and detach
traces; the empty string stands for the impossible branch ruled out by
the lookup-success hypotheses. -/
def lookupArn (avail : List Policy) (p : String) : String :=
  match (avail.filter (fun q => q.policyName == p)).head? with
  | some q => q.arn
  | none => ""

/-- A collaborator state with no role of the requested name and two
available managed policies. -/
def envNoRole : Env :=
  { getRoleResp := none, attachedRolePolicies := [],
    policies := [⟨"AmazonS3ReadOnlyAccess", "arn:aws:iam::aws:policy/AmazonS3ReadOnlyAccess"⟩,
                 ⟨"AWSBatchFullAccess", "arn:aws:iam::aws:policy/AWSBatchFullAccess"⟩],
    createRoleArn := "arn:aws:iam::123456789012:role/my-role",
    instanceProfilesForRole := [] }

/-- A collaborator state with no role of the requested name and an empty
available-policy list. -/
def envEmptyPolicies : Env :=
  { getRoleResp := none, attachedRolePolicies := [],
    policies := [],
    createRoleArn := "arn:aws:iam::123456789012:role/my-role",
    instanceProfilesForRole := [] }

/-- A collaborator state in which the requested role already exists,
with two attached policies and a bound instance profile. -/
def envWithRole : Env :=
  { getRoleResp := some ⟨"arn:aws:iam::123456789012:role/pre-role",
                         some "a preexisting role",
                         mkRolePolicy "ec2.amazonaws.com"⟩,
    attachedRolePolicies := ["AmazonS3ReadOnlyAccess", "AWSBatchFullAccess"],
    policies := [⟨"AmazonS3ReadOnlyAccess", "arn:aws:iam::aws:policy/AmazonS3ReadOnlyAccess"⟩,
                 ⟨"AWSBatchFullAccess", "arn:aws:iam::aws:policy/AWSBatchFullAccess"⟩],
    createRoleArn := "arn:aws:iam::123456789012:role/pre-role",
    instanceProfilesForRole := [⟨"pre-role-instance-profile",
                                "arn:aws:iam::123456789012:instance-profile/pre-role-instance-profile"⟩] }

/-- A constructed role with an instance profile and two attached
policies, used to exercise the destroy operation. -/
def roleTwoPolicies : IamRole :=
  { name := "my-role", pre_existing := false,
    description := "This role was generated by cloudknot",
    service := some "batch.amazonaws.com",
    role_policy_document := mkRolePolicy "batch.amazonaws.com",
    policies := ["AmazonS3ReadOnlyAccess", "AWSBatchFullAccess"],
    add_instance_profile := true,
    arn := "arn:aws:iam::123456789012:role/my-role" }

/-- A collaborator state for destroying roleTwoPolicies: one bound
instance profile and both attached policies present in the
available-policy list. -/
def envDestroy : Env :=
  { getRoleResp := some ⟨"arn:aws:iam::123456789012:role/my-role", none,
                         mkRolePolicy "batch.amazonaws.com"⟩,
    attachedRolePolicies := ["AmazonS3ReadOnlyAccess", "AWSBatchFullAccess"],
    policies := [⟨"AmazonS3ReadOnlyAccess", "arn:aws:iam::aws:policy/AmazonS3ReadOnlyAccess"⟩,
                 ⟨"AWSBatchFullAccess", "arn:aws:iam::aws:policy/AWSBatchFullAccess"⟩],
    createRoleArn := "arn:aws:iam::123456789012:role/my-role",
    instanceProfilesForRole := [⟨"my-role-instance-profile",
                                "arn:aws:iam::123456789012:instance-profile/my-role-instance-profile"⟩] }

/-- The role produced by a fresh construction against envNoRole with the
batch service and one requested policy. -/
def roleBatch : IamRole :=
  { name := "my-role", pre_existing := false,
    description := "This role was generated by cloudknot",
    service := some "batch.amazonaws.com",
    role_policy_document := mkRolePolicy "batch.amazonaws.com",
    policies := ["AmazonS3ReadOnlyAccess"],
    add_instance_profile := false,
    arn := "arn:aws:iam::123456789012:role/my-role" }

/-- The role produced by a fresh construction against envNoRole with a
caller-supplied truthy description. -/
def roleCustomDescr : IamRole :=
  { name := "my-role", pre_existing := false,
    description := "custom description",
    service := some "batch.amazonaws.com",
    role_policy_document := mkRolePolicy "batch.amazonaws.com",
    policies := [],
    add_instance_profile := false,
    arn := "arn:aws:iam::123456789012:role/my-role" }

end Cloudknot

namespace Cloudknot

/-! Helper lemmas shared by the claim theorems. -/

theorem pyStrictSubset_true_iff (a b : List String) :
    pyStrictSubset a b = true ↔ ((∀ p ∈ a, p ∈ b) ∧ ¬(∀ p ∈ b, p ∈ a)) := by
  simp [pyStrictSubset, subsetB, List.all_eq_true]

theorem normalizePolicies_tup_nil : normalizePolicies (PolicyInput.tup []) = some [] := rfl

theorem pyStrictSubset_nil_cons (x : String) (xs : List String) :
    pyStrictSubset [] (x :: xs) = true := by
  simp [pyStrictSubset, subsetB]

theorem init_fresh_ok_fields (name : String) (d : Option String) (service : String)
    (pin : PolicyInput) (aip : Bool) (env : Env) (r : IamRole)
    (hnr : env.getRoleResp = none)
    (hok : (IamRole.init name d service pin aip env).2 = .ok r) :
    r.pre_existing = false ∧
    r.service = some (service ++ ".amazonaws.com") ∧
    r.role_policy_document = mkRolePolicy (service ++ ".amazonaws.com") ∧
    r.description = (match d with
      | some s => if s == "" then "This role was generated by cloudknot" else s
      | none => "This role was generated by cloudknot") ∧
    r.add_instance_profile = aip ∧
    r.arn = env.createRoleArn := by
  simp only [IamRole.init, exists_already, hnr, Bool.false_eq_true, ↓reduceIte] at hok
  split at hok
  · split at hok
    · simp at hok
    · split at hok
      · simp at hok
      · rename_i role_arn harn
        simp only [Prod.snd, Except.ok.injEq] at hok
        subst hok
        refine ⟨rfl, rfl, rfl, ?_, rfl, ?_⟩
        · cases d with
          | none => rfl
          | some s => rfl
        · simp only [create] at harn
          split at harn
          · simp at harn
          · split at harn
            · simp only [Prod.snd, Except.ok.injEq] at harn
              exact harn.symm
            · simp only [Prod.snd, Except.ok.injEq] at harn
              exact harn.symm
  · simp at hok

theorem detachLoop_all_found (name : String) (avail : List Policy) (ps : List String)
    (h : ∀ p ∈ ps, avail.filter (fun q => q.policyName == p) ≠ []) :
    detachLoop name avail ps =
      (ps.map (fun p => Call.detachRolePolicy name (lookupArn avail p)), Except.ok ()) := by
  induction ps with
  | nil => rfl
  | cons p rest ih =>
    have hp : avail.filter (fun q => q.policyName == p) ≠ [] :=
      h p (List.mem_cons_self p rest)
    rcases hq : (avail.filter (fun q => q.policyName == p)).head? with _ | ⟨q⟩
    · rw [List.head?_eq_none_iff] at hq
      exact absurd hq hp
    · have ih2 := ih fun x hx => h x (List.mem_cons_of_mem p hx)
      have hq2 : avail.find? (fun q => q.policyName == p) = some q := by
        rw [← List.filter_head?]
        exact hq
      simp [detachLoop, hq, ih2, lookupArn, hq2]

theorem filter_isWrite_detach (name : String) (l : List String) (f : String → String) :
    (l.map (fun p => Call.detachRolePolicy name (f p))).filter Call.isWrite =
      l.map (fun p => Call.detachRolePolicy name (f p)) := by
  induction l with
  | nil => rfl
  | cons p rest ih => simp [Call.isWrite, ih]

/-! Claim theorems. -/

/-- C1, counterexample: with a name not present externally and the
service string invalid-service, construction fails with
InvalidServicePrincipal, but the collaborator-call trace emitted up to
the error is not empty, refuting the claim that no collaborator call is
made: the existence probe get-role call has already been issued. -/
theorem C1_counterexample :
    (IamRole.init "my-role" none "invalid-service" (PolicyInput.tup []) false
        envNoRole).2 = .error .invalidServicePrincipal ∧
    (IamRole.init "my-role" none "invalid-service" (PolicyInput.tup []) false
        envNoRole).1 ≠ [] := by
  refine ⟨rfl, ?_⟩
  show [Call.getRole "my-role"] ≠ []
  exact List.cons_ne_nil _ _

/-- C1, amended: for every service string outside the allowed enum,
constructing a Role for a name not present externally fails with
InvalidServicePrincipal, and the trace of collaborator calls emitted up
to the error consists exactly of the single get-role call of the
existence probe, which runs before the validation; in particular no
policy listing, creation or mutation call is made. -/
theorem C1_theorem (name : String) (d : Option String) (service : String)
    (pin : PolicyInput) (aip : Bool) (env : Env)
    (hnr : env.getRoleResp = none)
    (hs : service ∉ allowed_services) :
    IamRole.init name d service pin aip env
      = ([Call.getRole name], .error .invalidServicePrincipal) := by
  have hc : allowed_services.contains service = false := by
    simpa using hs
  simp [IamRole.init, exists_already, hnr, hc, hs]

/-- C1, witness: the amended theorem applied to the invalid-service
input against a collaborator with no such role. -/
theorem C1_witness :
    IamRole.init "my-role" none "invalid-service" (PolicyInput.tup []) false envNoRole
      = ([Call.getRole "my-role"], .error .invalidServicePrincipal) :=
  C1_theorem "my-role" none "invalid-service" (PolicyInput.tup []) false envNoRole rfl
    (by decide)

/-- C2, counterexample: requesting the single policy A when the
available set is exactly A is a well-formed input whose every name is a
member of the available set, yet resolution fails with
InvalidPolicySet, because the source requires a strict subset. -/
theorem C2_counterexample :
    resolvePolicies (PolicyInput.single "A") ["A"] = .error .invalidPolicySet ∧
    ("A" : String) ∈ (["A"] : List String) := by
  constructor
  · rfl
  · simp

/-- C2, amended: policy resolution fails with InvalidPolicySet if and
only if the requested input is neither a single string nor a
homogeneous collection of strings, or some requested name is not a
member of the available set, or the requested set is equal as a set to
the available set; equivalently, it succeeds exactly when the input is
well-formed and the requested set is a strict subset of the available
set. -/
theorem C2_theorem (pin : PolicyInput) (avail : List String) :
    resolvePolicies pin avail = .error .invalidPolicySet ↔
      normalizePolicies pin = none ∨
      ∃ ps, normalizePolicies pin = some ps ∧
        ((∃ p ∈ ps, p ∉ avail) ∨ (∀ p, p ∈ ps ↔ p ∈ avail)) := by
  unfold resolvePolicies
  cases h : normalizePolicies pin with
  | none => simp
  | some ps =>
    rcases hb : pyStrictSubset ps avail with _ | _
    · have hb2 : ¬((∀ p ∈ ps, p ∈ avail) ∧ ¬(∀ p ∈ avail, p ∈ ps)) := by
        rw [← pyStrictSubset_true_iff]
        simp [hb]
      push_neg at hb2
      simp only [hb, Bool.false_eq_true, if_false, Option.some.injEq, true_iff]
      refine Or.inr ⟨ps, rfl, ?_⟩
      by_cases hsub : ∀ p ∈ ps, p ∈ avail
      · exact Or.inr fun p => ⟨fun hp => hsub p hp, fun hp => hb2 hsub p hp⟩
      · push_neg at hsub
        exact Or.inl hsub
    · have hb2 := (pyStrictSubset_true_iff ps avail).mp hb
      simp only [hb, if_true, Option.some.injEq]
      constructor
      · intro hcon
        exact absurd hcon (by simp)
      · rintro (hnone | ⟨ps2, hps2, h1 | h2⟩)
        · exact absurd hnone (by simp)
        · cases hps2
          obtain ⟨p, hp, hnp⟩ := h1
          exact absurd (hb2.1 p hp) hnp
        · cases hps2
          exact absurd (fun p hp => (h2 p).mpr hp) hb2.2

/-- C3, counterexample: against a collaborator with no role of the
requested name and an empty available-policy list, constructing with
the valid principal ecs-tasks and an empty policy tuple fails with
InvalidPolicySet instead of succeeding, because the empty requested set
is not a strict subset of the empty available set. -/
theorem C3_counterexample :
    ("ecs-tasks" : String) ∈ allowed_services ∧
    (IamRole.init "my-role" none "ecs-tasks" (PolicyInput.tup []) false
        envEmptyPolicies).2 = .error .invalidPolicySet := by
  constructor
  · decide
  · rfl

/-- C3, amended: for every role name not present externally and every
available-policy state holding at least one policy, constructing with a
valid service principal and an empty policy set succeeds and produces a
Role whose arn is the collaborator create-role response, hence
non-empty whenever that response is non-empty, with preExisting false
and an empty attached-policy set. -/
theorem C3_theorem (name : String) (d : Option String) (service : String) (env : Env)
    (hnr : env.getRoleResp = none)
    (hs : service ∈ allowed_services)
    (hp : env.policies ≠ [])
    (ha : env.createRoleArn ≠ "") :
    ∃ r, (IamRole.init name d service (PolicyInput.tup []) false env).2 = .ok r ∧
      r.arn ≠ "" ∧ r.pre_existing = false ∧ r.policies = [] := by
  have hc : allowed_services.contains service = true := by simpa using hs
  rcases hpol : env.policies with _ | ⟨q, qs⟩
  · exact absurd hpol hp
  refine ⟨{ name := name, pre_existing := false,
            description := match d with
              | some s => if s == "" then "This role was generated by cloudknot" else s
              | none => "This role was generated by cloudknot",
            service := some (service ++ ".amazonaws.com"),
            role_policy_document := mkRolePolicy (service ++ ".amazonaws.com"),
            policies := [], add_instance_profile := false,
            arn := env.createRoleArn }, ?_, ha, rfl, rfl⟩
  simp only [IamRole.init, exists_already, hnr, hc, resolvePolicies, hpol,
    normalizePolicies_tup_nil, List.map_cons, pyStrictSubset_nil_cons, if_true,
    create, attachLoop]
  simp

/-- C3, witness: the amended theorem applied to a fresh name against a
collaborator with two available policies. -/
theorem C3_witness :
    ∃ r, (IamRole.init "my-role" none "ecs-tasks" (PolicyInput.tup []) false
        envNoRole).2 = .ok r ∧
      r.arn ≠ "" ∧ r.pre_existing = false ∧ r.policies = [] :=
  C3_theorem "my-role" none "ecs-tasks" envNoRole rfl (by decide) (by decide) (by decide)

/-- C4: for every role name already present externally, construction
adopts the existing role: the result has preExisting true,
servicePrincipal unset, and an attached-policy set equal as a set to
the policy names the collaborator reports as attached. -/
theorem C4_theorem (name : String) (d : Option String) (service : String)
    (pin : PolicyInput) (aip : Bool) (env : Env) (resp : GetRoleResp)
    (hr : env.getRoleResp = some resp) :
    ∃ r, (IamRole.init name d service pin aip env).2 = .ok r ∧
      r.pre_existing = true ∧ r.service = none ∧
      ∀ p, p ∈ r.policies ↔ p ∈ env.attachedRolePolicies := by
  refine ⟨{ name := name, pre_existing := true,
            description := match resp.description with | some s => s | none => "",
            service := none,
            role_policy_document := resp.assumeRolePolicyDocument,
            policies := env.attachedRolePolicies,
            add_instance_profile := false,
            arn := resp.arn }, ?_, rfl, rfl, fun p => Iff.rfl⟩
  simp [IamRole.init, exists_already, hr]

/-- C4, witness: adoption of the pre-existing role of envWithRole. -/
theorem C4_witness :
    ∃ r, (IamRole.init "pre-role" none "ecs-tasks" (PolicyInput.tup []) false
        envWithRole).2 = .ok r ∧
      r.pre_existing = true ∧ r.service = none ∧
      ∀ p, p ∈ r.policies ↔ p ∈ envWithRole.attachedRolePolicies :=
  C4_theorem "pre-role" none "ecs-tasks" (PolicyInput.tup []) false envWithRole
    ⟨"arn:aws:iam::123456789012:role/pre-role", some "a preexisting role",
     mkRolePolicy "ec2.amazonaws.com"⟩ rfl

/-- C5: for every role that exists externally, the existence probe
reports add_instance_profile as the literal false, regardless of the
instance profiles the external system actually holds for the role. -/
theorem C5_theorem (name : String) (env : Env) (resp : GetRoleResp)
    (hr : env.getRoleResp = some resp) :
    ((exists_already name env).2).add_instance_profile = some false := by
  simp [exists_already, hr]

/-- C5, witness: the probe against envWithRole, whose external role does
have a bound instance profile, still reports false. -/
theorem C5_witness :
    ((exists_already "pre-role" envWithRole).2).add_instance_profile = some false :=
  C5_theorem "pre-role" envWithRole
    ⟨"arn:aws:iam::123456789012:role/pre-role", some "a preexisting role",
     mkRolePolicy "ec2.amazonaws.com"⟩ rfl

/-- C6: for a Role with the instance-profile flag set and n attached
policies, when exactly one instance profile is bound and every attached
policy is present in the live available-policy list, the mutating calls
issued by destroy are exactly one remove-role-from-instance-profile,
then one delete-instance-profile, then one detach-policy per attached
policy, then one delete-role, in that order; the two interleaved read
calls, list-instance-profiles and list-policies, are filtered out by
Call.isWrite. -/
theorem C6_theorem (r : IamRole) (env : Env) (ip : InstanceProfile)
    (hf : r.add_instance_profile = true)
    (hip : env.instanceProfilesForRole = [ip])
    (hpols : ∀ p ∈ r.policies, env.policies.filter (fun q => q.policyName == p) ≠ []) :
    ((remove_aws_resource r env).2.1).filter Call.isWrite =
      Call.removeRoleFromInstanceProfile ip.instanceProfileName r.name ::
      Call.deleteInstanceProfile ip.instanceProfileName ::
      (r.policies.map (fun p => Call.detachRolePolicy r.name (lookupArn env.policies p)) ++
        [Call.deleteRole r.name]) := by
  simp only [remove_aws_resource, hf, hip, ↓reduceIte, List.head?_cons,
    detachLoop_all_found r.name env.policies r.policies hpols]
  simp [Call.isWrite, filter_isWrite_detach]

/-- C6, witness: destroying roleTwoPolicies against envDestroy issues
one unbind, one profile delete, two detaches and one role delete, in
that order. -/
theorem C6_witness :
    ((remove_aws_resource roleTwoPolicies envDestroy).2.1).filter Call.isWrite =
      Call.removeRoleFromInstanceProfile "my-role-instance-profile" "my-role" ::
      Call.deleteInstanceProfile "my-role-instance-profile" ::
      (roleTwoPolicies.policies.map
          (fun p => Call.detachRolePolicy "my-role" (lookupArn envDestroy.policies p)) ++
        [Call.deleteRole "my-role"]) :=
  C6_theorem roleTwoPolicies envDestroy
    ⟨"my-role-instance-profile",
     "arn:aws:iam::123456789012:instance-profile/my-role-instance-profile"⟩
    rfl rfl (by decide)

/-- C7: for every role name, when the collaborator get-role operation
reports no such entity, the probe returns normally (the exception is
swallowed, as the total return type of the embedding shows) with exists
false and every other field of the snapshot equal to none. -/
theorem C7_theorem (name : String) (env : Env) (h : env.getRoleResp = none) :
    exists_already name env =
      ([Call.getRole name],
       { exists_ := false, description := none, role_policy_document := none,
         policies := none, add_instance_profile := none, arn := none }) := by
  simp [exists_already, h]

/-- C7, witness: probing a missing role name against envNoRole. -/
theorem C7_witness :
    exists_already "missing-role" envNoRole =
      ([Call.getRole "missing-role"],
       { exists_ := false, description := none, role_policy_document := none,
         policies := none, add_instance_profile := none, arn := none }) :=
  C7_theorem "missing-role" envNoRole rfl

/-- C8: whenever a fresh construction succeeds, the trust-policy
document of the produced Role is exactly the single-statement document
with Version 2012-10-17, empty Sid, Effect Allow, Action
sts:AssumeRole, and Principal Service equal to the service principal
suffixed with .amazonaws.com. -/
theorem C8_theorem (name : String) (d : Option String) (service : String)
    (pin : PolicyInput) (aip : Bool) (env : Env) (r : IamRole)
    (hnr : env.getRoleResp = none)
    (hok : (IamRole.init name d service pin aip env).2 = .ok r) :
    r.role_policy_document =
      { version := "2012-10-17",
        statement := [{ sid := "", effect := "Allow",
                        principalService := service ++ ".amazonaws.com",
                        action := "sts:AssumeRole" }] } :=
  (init_fresh_ok_fields name d service pin aip env r hnr hok).2.2.1

/-- C8, witness: the fresh construction of roleBatch yields the batch
trust-policy document. -/
theorem C8_witness :
    roleBatch.role_policy_document =
      { version := "2012-10-17",
        statement := [{ sid := "", effect := "Allow",
                        principalService := "batch.amazonaws.com",
                        action := "sts:AssumeRole" }] } :=
  C8_theorem "my-role" none "batch" (PolicyInput.single "AmazonS3ReadOnlyAccess") false
    envNoRole roleBatch rfl rfl

/-- C9: destroy never mutates the in-memory object: for every Role and
every collaborator state, whether the operation completes or aborts on
an error partway, the object component of the result is the input
object unchanged; only external calls are issued. -/
theorem C9_theorem (r : IamRole) (env : Env) :
    (remove_aws_resource r env).1 = r := by
  unfold remove_aws_resource
  repeat' first | rfl | split

/-- C10: for every fresh construction that succeeds, a description
argument of none or the empty string yields the default description
text, and any non-empty string description is stored unchanged (the str
conversion of a Python string is itself). -/
theorem C10_theorem (name : String) (d : Option String) (service : String)
    (pin : PolicyInput) (aip : Bool) (env : Env) (r : IamRole)
    (hnr : env.getRoleResp = none)
    (hok : (IamRole.init name d service pin aip env).2 = .ok r) :
    ((d = none ∨ d = some "") → r.description = "This role was generated by cloudknot") ∧
    (∀ s, d = some s → s ≠ "" → r.description = s) := by
  have h := (init_fresh_ok_fields name d service pin aip env r hnr hok).2.2.2.1
  constructor
  · rintro (rfl | rfl)
    · simpa using h
    · simpa using h
  · rintro s rfl hs
    rw [h]
    simp [hs]

/-- C10, witness: a fresh construction with a truthy description stores
it unchanged. -/
theorem C10_witness :
    (((some "custom description" : Option String) = none ∨
        (some "custom description" : Option String) = some "") →
      roleCustomDescr.description = "This role was generated by cloudknot") ∧
    (∀ s, (some "custom description" : Option String) = some s → s ≠ "" →
      roleCustomDescr.description = s) :=
  C10_theorem "my-role" (some "custom description") "batch" (PolicyInput.tup []) false
    envNoRole roleCustomDescr rfl rfl

end Cloudknot
